import Mathlib

/-!
Verification of the cost-effective agent heartbeat script
(src/archive/python-agents/cost-effective-agent-heartbeat.py).

The Python program is embedded shallowly: pure computations become Lean
functions over exact rationals and integers; the fallible effects (OS metric
queries, HTTP requests) become explicit outcome parameters, so every Python
code path is a branch of a total Lean function.
-/

namespace Heartbeat

/-- Round a rational to the nearest integer, ties to even.  This is the
semantics of the built-in round in Python 3 (banker's rounding); the
concrete values appearing in the program are far from representation-error
range, so the exact-rational model is faithful to the float computation. -/
def roundHalfEven (x : ℚ) : ℤ :=
  let f := Int.floor x
  let frac := x - f
  if frac < 1/2 then f
  else if 1/2 < frac then f + 1
  else if f % 2 = 0 then f else f + 1

/-- Python round(x, n) on exact rationals. -/
def pyRound (x : ℚ) (n : ℕ) : ℚ :=
  (roundHalfEven (x * 10 ^ n) : ℚ) / 10 ^ n

/-- Agent status reported in the heartbeat payload. -/
inductive Status where
  | idle
  | running
  | busy
deriving DecidableEq, Repr

/-- Status derivation inlined in send_heartbeat (lines 132-139):
if cpu > 80: busy; elif cpu > 10: running; else: idle. -/
def classify (cpu : ℚ) : Status :=
  if cpu > 80 then Status.busy
  else if cpu > 10 then Status.running
  else Status.idle

/-- Result record of calculate_cost. -/
structure CostEstimate where
  hourly : ℚ
  daily : ℚ
  monthly : ℚ
deriving DecidableEq, Repr

/-- The fixed hourly-rate table from calculate_cost (lines 104-115). -/
def cost_map : List (String × ℚ) :=
  [("t2.micro", 0.0116),
   ("t2.small", 0.023),
   ("t2.medium", 0.046),
   ("t3.micro", 0.0104),
   ("t3.small", 0.0208),
   ("t3.medium", 0.0416),
   ("m5.large", 0.096),
   ("m5.xlarge", 0.192),
   ("c5.large", 0.085),
   ("c5.xlarge", 0.17)]

/-- calculate_cost (lines 101-123).  The Python argument may be None
(Option); cost_map.get(instance_type, 0.05) defaults to 0.05 both for a
missing key and for a None argument. -/
def calculate_cost (instance_type : Option String) : CostEstimate :=
  let hourly := (instance_type.bind (fun t => cost_map.lookup t)).getD 0.05
  { hourly := pyRound hourly 4
    daily := pyRound (hourly * 24) 2
    monthly := pyRound (hourly * 24 * 30) 2 }

/-- A successful association-list lookup returns one of the stored values. -/
lemma lookup_mem_snd {α β : Type} [BEq α] (l : List (α × β)) (a : α) (b : β)
    (h : l.lookup a = some b) : b ∈ l.map Prod.snd := by
  induction l with
  | nil => simp [List.lookup] at h
  | cons p rest ih =>
    obtain ⟨k, v⟩ := p
    simp only [List.lookup] at h
    cases hc : (a == k) with
    | true =>
      rw [hc] at h
      simp only [Option.some.injEq] at h
      subst h
      simp
    | false =>
      rw [hc] at h
      simp only [List.map_cons, List.mem_cons]
      exact Or.inr (ih h)

/-- Any rate produced by the table lookup (or the default) is one of the
eleven concrete rationals below. -/
lemma lookup_rate_mem (t : Option String) :
    (t.bind (fun s => cost_map.lookup s)).getD 0.05 ∈
      ([0.0116, 0.023, 0.046, 0.0104, 0.0208, 0.0416,
        0.096, 0.192, 0.085, 0.17, 0.05] : List ℚ) := by
  cases t with
  | none => norm_num [List.mem_cons]
  | some s =>
    simp only [Option.some_bind]
    cases h : cost_map.lookup s with
    | none => norm_num [List.mem_cons]
    | some v =>
      have hv : v ∈ cost_map.map Prod.snd := lookup_mem_snd cost_map s v h
      simp only [Option.getD_some]
      simp [cost_map] at hv
      rcases hv with h1 | h1 | h1 | h1 | h1 | h1 | h1 | h1 | h1 | h1 <;>
        subst h1 <;> norm_num [List.mem_cons]

/-- Concrete evaluation of the t3.medium row of calculate_cost. -/
lemma calculate_cost_t3medium_eval :
    calculate_cost (some "t3.medium") = ⟨0.0416, 1, 29.95⟩ := by
  have h : cost_map.lookup "t3.medium" = some 0.0416 := by
    simp [cost_map, List.lookup]
  simp only [calculate_cost, Option.some_bind, h, Option.getD_some]
  norm_num [pyRound, roundHalfEven]

/-- C1: the status derived in send_heartbeat is a pure function of
cpuUsage; every cpu in [0,10] maps to idle, every cpu in (10,80] to
running, every cpu in (80,100] to busy, the boundaries 10 and 80 falling
in the lower band. -/
theorem classify_bands (cpu : ℚ) :
    (0 ≤ cpu → cpu ≤ 10 → classify cpu = Status.idle) ∧
    (10 < cpu → cpu ≤ 80 → classify cpu = Status.running) ∧
    (80 < cpu → cpu ≤ 100 → classify cpu = Status.busy) := by
  unfold classify
  refine ⟨fun h1 h2 => ?_, fun h1 h2 => ?_, fun h1 h2 => ?_⟩ <;>
    split_ifs <;> first | rfl | linarith

/-- Witness for C1 at the band boundaries 10, 80 and at 81. -/
theorem classify_bands_witness :
    classify 10 = Status.idle ∧ classify 80 = Status.running ∧
    classify 81 = Status.busy :=
  ⟨(classify_bands 10).1 (by norm_num) (by norm_num),
   (classify_bands 80).2.1 (by norm_num) (by norm_num),
   (classify_bands 81).2.2 (by norm_num) (by norm_num)⟩

/-- C2: for every instance type in the table with hourly rate H,
calculate_cost returns round(H,4), round(H*24,2), round(H*24*30,2); for a
type outside the table, and for a missing type, it uses the default rate
0.05 in the same formulas. -/
theorem calculate_cost_table_spec :
    (∀ t H, (t, H) ∈ cost_map →
      calculate_cost (some t) =
        ⟨pyRound H 4, pyRound (H * 24) 2, pyRound (H * 24 * 30) 2⟩) ∧
    (∀ t, cost_map.lookup t = none →
      calculate_cost (some t) =
        ⟨pyRound 0.05 4, pyRound (0.05 * 24) 2, pyRound (0.05 * 24 * 30) 2⟩) ∧
    calculate_cost none =
      ⟨pyRound 0.05 4, pyRound (0.05 * 24) 2, pyRound (0.05 * 24 * 30) 2⟩ := by
  refine ⟨fun t H h => ?_, fun t h => ?_, rfl⟩
  · simp only [cost_map, List.mem_cons, List.not_mem_nil, or_false,
      Prod.mk.injEq] at h
    rcases h with ⟨ht, hH⟩ | ⟨ht, hH⟩ | ⟨ht, hH⟩ | ⟨ht, hH⟩ | ⟨ht, hH⟩ |
      ⟨ht, hH⟩ | ⟨ht, hH⟩ | ⟨ht, hH⟩ | ⟨ht, hH⟩ | ⟨ht, hH⟩ <;>
      subst ht <;> subst hH <;> simp [calculate_cost, cost_map, List.lookup]
  · simp [calculate_cost, h]

/-- Witness for C2: the table row t3.medium and the unknown type m6.large. -/
theorem calculate_cost_table_spec_witness :
    calculate_cost (some "t3.medium") =
      ⟨pyRound 0.0416 4, pyRound (0.0416 * 24) 2,
        pyRound (0.0416 * 24 * 30) 2⟩ ∧
    calculate_cost (some "m6.large") =
      ⟨pyRound 0.05 4, pyRound (0.05 * 24) 2, pyRound (0.05 * 24 * 30) 2⟩ :=
  ⟨calculate_cost_table_spec.1 "t3.medium" 0.0416 (by simp [cost_map]),
   calculate_cost_table_spec.2.1 "m6.large" (by simp [cost_map, List.lookup])⟩

/-- C3 counterexample: at instance type t3.medium the returned estimate has
daily = 1 but hourly * 24 = 0.9984, and monthly = 29.95 but daily * 30 = 30,
so the rounded fields do not satisfy the exact products the claim states. -/
theorem cost_fields_not_exact_products :
    (calculate_cost (some "t3.medium")).daily ≠
      (calculate_cost (some "t3.medium")).hourly * 24 ∧
    (calculate_cost (some "t3.medium")).monthly ≠
      (calculate_cost (some "t3.medium")).daily * 30 := by
  rw [calculate_cost_t3medium_eval]
  norm_num

/-- C3 amended: for every instance_type the estimate satisfies
daily = round(hourly*24, 2) and monthly = round(hourly*24*30, 2) - monthly
is recomputed from the hourly rate, not from the rounded daily field - and
all three fields are non-negative. -/
theorem cost_fields_relation (t : Option String) :
    0 ≤ (calculate_cost t).hourly ∧ 0 ≤ (calculate_cost t).daily ∧
    0 ≤ (calculate_cost t).monthly ∧
    (calculate_cost t).daily = pyRound ((calculate_cost t).hourly * 24) 2 ∧
    (calculate_cost t).monthly =
      pyRound ((calculate_cost t).hourly * 24 * 30) 2 := by
  obtain ⟨r, hr, hc⟩ :
      ∃ r, r ∈ ([0.0116, 0.023, 0.046, 0.0104, 0.0208, 0.0416,
          0.096, 0.192, 0.085, 0.17, 0.05] : List ℚ) ∧
        calculate_cost t =
          ⟨pyRound r 4, pyRound (r * 24) 2, pyRound (r * 24 * 30) 2⟩ :=
    ⟨_, lookup_rate_mem t, rfl⟩
  rw [hc]
  fin_cases hr <;> norm_num [pyRound, roundHalfEven]

/-- Metrics dictionary built by get_system_metrics (lines 49-57 and 60-67). -/
structure SystemMetrics where
  cpuUsage : ℚ
  memoryUsage : ℚ
  diskUsage : ℚ
  networkIn : ℤ
  networkOut : ℤ
  tasksCompleted : ℤ
  currentTasks : ℤ
deriving DecidableEq, Repr

/-- get_system_metrics (lines 32-68).  Each psutil query is modelled by an
outcome parameter: some value on success, none when the call raises.  A
raise anywhere in the try block jumps to the except handler, which returns
the all-zero snapshot still carrying the in-memory task counters; this is
the catch-all branch of the match. -/
def get_system_metrics (cpuQ memQ : Option ℚ) (diskQ : Option (ℚ × ℚ))
    (netQ : Option (ℤ × ℤ)) (tasks_completed current_tasks : ℤ) :
    SystemMetrics :=
  match cpuQ, memQ, diskQ, netQ with
  | some cpu, some mem, some (used, total), some (recv, sent) =>
      { cpuUsage := pyRound cpu 2
        memoryUsage := pyRound mem 2
        diskUsage := pyRound (used / total * 100) 2
        networkIn := recv
        networkOut := sent
        tasksCompleted := tasks_completed
        currentTasks := current_tasks }
  | _, _, _, _ =>
      { cpuUsage := 0
        memoryUsage := 0
        diskUsage := 0
        networkIn := 0
        networkOut := 0
        tasksCompleted := tasks_completed
        currentTasks := current_tasks }

/-- Scaling a value rounded to n decimal places by 10^n gives an integer. -/
lemma pyRound_mul_pow_int (x : ℚ) (n : ℕ) :
    pyRound x n * 10 ^ n = (roundHalfEven (x * 10 ^ n) : ℚ) := by
  unfold pyRound
  field_simp

/-- C4: if any underlying OS metric query fails, the sampler returns the
snapshot with cpuUsage, memoryUsage, diskUsage, networkIn and networkOut
all zero, while tasksCompleted and currentTasks keep the in-memory counter
values; no error propagates (the function is total). -/
theorem get_system_metrics_failure (cpuQ memQ : Option ℚ)
    (diskQ : Option (ℚ × ℚ)) (netQ : Option (ℤ × ℤ)) (tc ct : ℤ)
    (h : cpuQ = none ∨ memQ = none ∨ diskQ = none ∨ netQ = none) :
    get_system_metrics cpuQ memQ diskQ netQ tc ct =
      { cpuUsage := 0, memoryUsage := 0, diskUsage := 0, networkIn := 0,
        networkOut := 0, tasksCompleted := tc, currentTasks := ct } := by
  rcases cpuQ with _ | cpu <;> rcases memQ with _ | mem <;>
    rcases diskQ with _ | ⟨used, total⟩ <;>
    rcases netQ with _ | ⟨recv, sent⟩ <;>
    simp_all [get_system_metrics]

/-- Witness for C4: a failed CPU query with counters 7 and 3. -/
theorem get_system_metrics_failure_witness :
    get_system_metrics none none none none 7 3 =
      { cpuUsage := 0, memoryUsage := 0, diskUsage := 0, networkIn := 0,
        networkOut := 0, tasksCompleted := 7, currentTasks := 3 } :=
  get_system_metrics_failure none none none none 7 3 (Or.inl rfl)

/-- C9: in a successfully sampled snapshot, cpuUsage, memoryUsage and
diskUsage are the raw readings rounded to 2 decimal places (so 100 times
each is an integer), while networkIn and networkOut are the raw cumulative
byte counters, unrounded. -/
theorem get_system_metrics_rounding (cpu mem used total : ℚ)
    (recv sent tc ct : ℤ) :
    (∃ k : ℤ, (get_system_metrics (some cpu) (some mem) (some (used, total))
      (some (recv, sent)) tc ct).cpuUsage * 100 = k) ∧
    (∃ k : ℤ, (get_system_metrics (some cpu) (some mem) (some (used, total))
      (some (recv, sent)) tc ct).memoryUsage * 100 = k) ∧
    (∃ k : ℤ, (get_system_metrics (some cpu) (some mem) (some (used, total))
      (some (recv, sent)) tc ct).diskUsage * 100 = k) ∧
    (get_system_metrics (some cpu) (some mem) (some (used, total))
      (some (recv, sent)) tc ct).cpuUsage = pyRound cpu 2 ∧
    (get_system_metrics (some cpu) (some mem) (some (used, total))
      (some (recv, sent)) tc ct).memoryUsage = pyRound mem 2 ∧
    (get_system_metrics (some cpu) (some mem) (some (used, total))
      (some (recv, sent)) tc ct).diskUsage =
        pyRound (used / total * 100) 2 ∧
    (get_system_metrics (some cpu) (some mem) (some (used, total))
      (some (recv, sent)) tc ct).networkIn = recv ∧
    (get_system_metrics (some cpu) (some mem) (some (used, total))
      (some (recv, sent)) tc ct).networkOut = sent := by
  have h100 : (100 : ℚ) = 10 ^ 2 := by norm_num
  refine ⟨⟨roundHalfEven (cpu * 10 ^ 2), ?_⟩,
    ⟨roundHalfEven (mem * 10 ^ 2), ?_⟩,
    ⟨roundHalfEven (used / total * 100 * 10 ^ 2), ?_⟩,
    rfl, rfl, rfl, rfl, rfl⟩ <;>
    · show pyRound _ 2 * 100 = _
      rw [h100, pyRound_mul_pow_int]

/-- Outcome of one requests.get call against the metadata endpoint: exn
models a raised exception (timeout, connection error); response carries the
HTTP status code and the body text. -/
inductive HttpOutcome where
  | exn
  | response (status : ℕ) (text : String)
deriving DecidableEq, Repr

/-- True when the outcome is a lookup failure: an exception or a non-200
status. -/
def httpFailed : HttpOutcome → Bool
  | HttpOutcome.exn => true
  | HttpOutcome.response s _ => if s = 200 then false else true

/-- Metadata dictionary built by get_instance_metadata.  The except branch
of the Python code omits the instanceId/instanceType keys; an omitted key
and an explicit None are both modelled as none. -/
structure AgentMetadata where
  instanceId : Option String
  instanceType : Option String
  hostname : String
  agentType : String
  version : String
  capabilities : List String
deriving DecidableEq, Repr

/-- get_instance_metadata (lines 70-99).  idQ is the outcome of the
instance-id request, typeQ of the instance-type request.  If the first
request raises, the outer except returns at once (so the second request
never runs and both fields are absent); otherwise instance_id is the body
on status 200 and None else, and the inner try gives instance_type the
same way, swallowing any exception. -/
def get_instance_metadata (agent_type hostname : String)
    (idQ typeQ : HttpOutcome) : AgentMetadata :=
  match idQ with
  | HttpOutcome.exn =>
      { instanceId := none
        instanceType := none
        hostname := hostname
        agentType := agent_type
        version := "1.0.0"
        capabilities := ["task_execution", "code_generation", "monitoring"] }
  | HttpOutcome.response s1 t1 =>
      let instance_id := if s1 = 200 then some t1 else none
      let instance_type :=
        match typeQ with
        | HttpOutcome.exn => none
        | HttpOutcome.response s2 t2 => if s2 = 200 then some t2 else none
      { instanceId := instance_id
        instanceType := instance_type
        hostname := hostname
        agentType := agent_type
        version := "1.0.0"
        capabilities := ["task_execution", "code_generation", "monitoring"] }

/-- C8: a failed metadata lookup (exception or non-200) leaves the
corresponding field absent, and the resolver still returns normally (it is
a total function, so no error escapes); each lookup outcome is consumed
exactly once per cycle, so there is no retry. -/
theorem get_instance_metadata_failure (aty hn : String)
    (idQ typeQ : HttpOutcome) :
    (httpFailed idQ = true →
      (get_instance_metadata aty hn idQ typeQ).instanceId = none) ∧
    (httpFailed typeQ = true →
      (get_instance_metadata aty hn idQ typeQ).instanceType = none) := by
  constructor <;> intro h <;> cases idQ <;> cases typeQ <;>
    simp_all [get_instance_metadata, httpFailed]

/-- Witness for C8: a 500 on the instance-id lookup and a timeout on the
instance-type lookup. -/
theorem get_instance_metadata_failure_witness :
    (get_instance_metadata "developer" "host1"
      (HttpOutcome.response 500 "err") HttpOutcome.exn).instanceId = none ∧
    (get_instance_metadata "developer" "host1"
      (HttpOutcome.response 500 "err") HttpOutcome.exn).instanceType = none :=
  ⟨(get_instance_metadata_failure "developer" "host1"
      (HttpOutcome.response 500 "err") HttpOutcome.exn).1 rfl,
   (get_instance_metadata_failure "developer" "host1"
      (HttpOutcome.response 500 "err") HttpOutcome.exn).2 rfl⟩

/-- C10: on every branch of the resolver the returned metadata carries the
hostname, the configured agent type, version 1.0.0 and the fixed
capabilities list. -/
theorem get_instance_metadata_constants (aty hn : String)
    (idQ typeQ : HttpOutcome) :
    (get_instance_metadata aty hn idQ typeQ).hostname = hn ∧
    (get_instance_metadata aty hn idQ typeQ).agentType = aty ∧
    (get_instance_metadata aty hn idQ typeQ).version = "1.0.0" ∧
    (get_instance_metadata aty hn idQ typeQ).capabilities =
      ["task_execution", "code_generation", "monitoring"] := by
  cases idQ <;> simp [get_instance_metadata]

/-- Outcome of the heartbeat POST (line 150): exn models a raised transport
error; response carries the status code and whether response.json() parses. -/
inductive PostOutcome where
  | exn
  | response (status : ℕ) (jsonOk : Bool)
deriving DecidableEq, Repr

/-- The response handling of send_heartbeat (lines 150-162).  On status 200
the code first calls response.json(); when the body is not valid JSON that
call raises, control moves to the except handler, and False is returned.
Any non-200 status and any transport error also return False. -/
def send_heartbeat (post : PostOutcome) : Bool :=
  match post with
  | PostOutcome.exn => false
  | PostOutcome.response status jsonOk =>
      if status = 200 then (if jsonOk then true else false) else false

/-- C5 counterexample: an HTTP 200 response whose body fails JSON parsing
makes send_heartbeat return False, so success is not exactly HTTP 200 and
body parsing does affect the success signal. -/
theorem send_heartbeat_200_bad_json :
    send_heartbeat (PostOutcome.response 200 false) ≠ true := by
  decide

/-- C5 amended: send_heartbeat returns True exactly when the POST yields
HTTP 200 and the response body parses as JSON; every other status code
(500 included), JSON parse failure on a 200, or transport error returns
False without raising. -/
theorem send_heartbeat_success_iff (post : PostOutcome) :
    send_heartbeat post = true ↔ post = PostOutcome.response 200 true := by
  cases post with
  | exn => simp [send_heartbeat]
  | response s j =>
    cases j <;> by_cases h : s = 200 <;> simp [send_heartbeat, h]

/-- The two in-memory counters of the agent (lines 25-26).  Python integers
are unbounded, so both are modelled as ℤ. -/
structure AgentCounters where
  tasks_completed : ℤ
  current_tasks : ℤ
deriving DecidableEq, Repr

/-- simulate_task_activity (lines 164-177).  The three random draws of one
call are the booleans r1 (complete a task), r2 (start a task, capped with
min at 5) and r3 (finish a current task, guarded by current_tasks > 0). -/
def simulate_task_activity (s : AgentCounters) (r1 r2 r3 : Bool) :
    AgentCounters :=
  let s1 := if r1 then
    { s with tasks_completed := s.tasks_completed + 1 } else s
  let s2 := if r2 then
    { s1 with current_tasks := min (s1.current_tasks + 1) 5 } else s1
  if r3 = true ∧ 0 < s2.current_tasks then
    { s2 with current_tasks := s2.current_tasks - 1 } else s2

/-- One iteration of the loop applied to the counters: the list entry holds
the three random draws of that iteration. -/
def runActivity (s : AgentCounters) (steps : List (Bool × Bool × Bool)) :
    AgentCounters :=
  steps.foldl
    (fun acc step => simulate_task_activity acc step.1 step.2.1 step.2.2) s

/-- One call of simulate_task_activity keeps current_tasks within [0,5]. -/
lemma simulate_task_activity_bounds (s : AgentCounters) (r1 r2 r3 : Bool)
    (h0 : 0 ≤ s.current_tasks) (h5 : s.current_tasks ≤ 5) :
    0 ≤ (simulate_task_activity s r1 r2 r3).current_tasks ∧
    (simulate_task_activity s r1 r2 r3).current_tasks ≤ 5 := by
  cases r1 <;> cases r2 <;> cases r3 <;>
    simp [simulate_task_activity, min_def] <;>
    first
    | omega
    | (split_ifs <;> (try simp) <;> omega)

/-- The bounds are preserved along any sequence of iterations. -/
lemma runActivity_bounds (steps : List (Bool × Bool × Bool))
    (s : AgentCounters) (h0 : 0 ≤ s.current_tasks)
    (h5 : s.current_tasks ≤ 5) :
    0 ≤ (runActivity s steps).current_tasks ∧
    (runActivity s steps).current_tasks ≤ 5 := by
  induction steps generalizing s with
  | nil => exact ⟨h0, h5⟩
  | cons st rest ih =>
    have h := simulate_task_activity_bounds s st.1 st.2.1 st.2.2 h0 h5
    exact ih _ h.1 h.2

/-- C7: starting from the initial state (both counters 0), after any
sequence of iterations with any random outcomes, 0 ≤ current_tasks ≤ 5. -/
theorem current_tasks_bounded (steps : List (Bool × Bool × Bool)) :
    0 ≤ (runActivity ⟨0, 0⟩ steps).current_tasks ∧
    (runActivity ⟨0, 0⟩ steps).current_tasks ≤ 5 :=
  runActivity_bounds steps ⟨0, 0⟩ (le_refl 0) (by norm_num)

/-- What happens inside one pass of the while body of run (lines 183-202):
a normal iteration in which send_heartbeat returned success or failure, an
unclassified exception caught by the except handler at the loop boundary,
or a KeyboardInterrupt. -/
inductive LoopEvent where
  | iteration (success : Bool)
  | unexpected
  | interrupted
deriving DecidableEq, Repr

/-- Whether the while loop of run is still iterating. -/
inductive LoopState where
  | running
  | stopped
deriving DecidableEq, Repr

/-- One pass of the while body (lines 183-202).  A normal iteration, with
success True or False, falls through the sleep to the next iteration; an
unexpected exception is caught, logged, and also falls through the sleep;
only KeyboardInterrupt breaks out of the loop. -/
def loopStep : LoopState → LoopEvent → LoopState
  | LoopState.stopped, _ => LoopState.stopped
  | LoopState.running, LoopEvent.interrupted => LoopState.stopped
  | LoopState.running, _ => LoopState.running

/-- The loop of run driven by a sequence of per-iteration events. -/
def runLoop (s : LoopState) (evs : List LoopEvent) : LoopState :=
  evs.foldl loopStep s

/-- A stopped loop stays stopped. -/
lemma runLoop_stopped (evs : List LoopEvent) :
    runLoop LoopState.stopped evs = LoopState.stopped := by
  induction evs with
  | nil => rfl
  | cons e rest ih => simpa [runLoop, List.foldl, loopStep] using ih

/-- C6: the main loop reaches Stopped exactly when an interruption event
occurs; a failed heartbeat or an unexpected error never terminates it, the
loop just sleeps and runs the next iteration. -/
theorem loop_stops_only_on_interrupt (evs : List LoopEvent) :
    runLoop LoopState.running evs = LoopState.stopped ↔
      LoopEvent.interrupted ∈ evs := by
  induction evs with
  | nil => simp [runLoop]
  | cons e rest ih =>
    cases e with
    | interrupted =>
      have h1 : runLoop LoopState.running (LoopEvent.interrupted :: rest) =
          runLoop LoopState.stopped rest := rfl
      rw [h1, runLoop_stopped rest]
      simp
    | iteration b =>
      simpa [runLoop, List.foldl, loopStep] using ih
    | unexpected =>
      simpa [runLoop, List.foldl, loopStep] using ih

end Heartbeat
